import Mathlib

/-!
Verification of the single-threaded web server in
`src/20_web_server/01_single_threaded_web_server/src/main.rs`.

The server binds a TCP listener, accepts connections one at a time, reads at
most 1024 bytes of the request into a zero-initialised stack buffer, matches
the literal byte sequence `b"GET / HTTP/1.1\r\n"` against the start of the
buffer, and answers with one of two fixed status lines followed by the verbatim
contents of `hello.html` or `404.html`.

The embedding models a request as its byte sequence (`List Nat`), the file
system as a partial map `String → Option String` (`None` models a failing
`fs::read_to_string`, on which the code's `.unwrap()` panics), and the
observable behaviour of a connection and of the accept loop as event traces.
-/

namespace WebServer

/-- Size of the stack buffer in `handle_connection`: `let mut buffer = [0; 1024];`. -/
def BUF_SIZE : Nat := 1024

/-- Bytes of an ASCII string literal, as in the Rust byte string `b"..."`.
All literals involved are ASCII, where the UTF-8 bytes coincide with the
character codes. -/
def asciiBytes (s : String) : List Nat :=
  s.toList.map Char.toNat

/-- The request-line pattern: `let get = b"GET / HTTP/1.1\r\n";`. -/
def get : List Nat := asciiBytes "GET / HTTP/1.1\r\n"

/-- Rust `slice::starts_with`: does the first list begin with the second. -/
def starts_with : List Nat → List Nat → Bool
  | _, [] => true
  | [], _ :: _ => false
  | a :: as, b :: bs => a == b && starts_with as bs

/-- The buffer after `let mut buffer = [0; 1024]; stream.read(&mut buffer).unwrap();`:
the first `min (|request|) 1024` bytes of the request, with the remaining
positions of the 1024-byte buffer still holding their initial zero bytes. -/
def readToBuffer (request : List Nat) : List Nat :=
  request.take BUF_SIZE ++ List.replicate (BUF_SIZE - request.length) 0

/-- The classification in `handle_connection`:
`let (status_line, filename) = if buffer.starts_with(get) { ("HTTP/1.1 200 OK\r\n\r\n", "hello.html") } else { ("HTTP/1.1 404 NOT FOUND\r\n\r\n", "404.html") };`. -/
def classifyBuffer (buffer : List Nat) : String × String :=
  if starts_with buffer get then
    ("HTTP/1.1 200 OK\r\n\r\n", "hello.html")
  else
    ("HTTP/1.1 404 NOT FOUND\r\n\r\n", "404.html")

/-- The status line selected for a raw request (classification applied to the
buffer the request produces). -/
def routeStatus (request : List Nat) : String :=
  (classifyBuffer (readToBuffer request)).1

/-- The file name selected for a raw request. -/
def routeFile (request : List Nat) : String :=
  (classifyBuffer (readToBuffer request)).2

/-- The response produced by `handle_connection` for a request, given the file
system `fs`. `none` models the panic of `contents = fs::read_to_string(filename).unwrap()`
when the selected file is missing; otherwise the response is
`format!("{}{}", status_line, contents)`. -/
def handle_connection (fs : String → Option String) (request : List Nat) :
    Option String :=
  match fs (routeFile request) with
  | some contents => some (routeStatus request ++ contents)
  | none => none

/-- Observable events of the server, tagged per connection in a trace:
accepting a connection (or panicking on a failed accept), the single
`stream.read` of at most 1024 bytes, writing response data, flushing, the
close of the connection when the `TcpStream` is dropped, and the panic of an
`unwrap` inside `handle_connection`. -/
inductive Ev where
  | acceptEv : Ev
  | acceptPanicEv : Ev
  | readEv : Nat → Ev
  | writeEv : String → Ev
  | flushEv : Ev
  | closeEv : Ev
  | panicEv : Ev
deriving DecidableEq

/-- The stream events of one run of `handle_connection`: read up to 1024
bytes, then either panic (missing file) or write the full response, flush,
and close the connection by dropping the stream. -/
def handleTrace (fs : String → Option String) (request : List Nat) : List Ev :=
  match fs (routeFile request) with
  | some contents =>
      [Ev.readEv BUF_SIZE, Ev.writeEv (routeStatus request ++ contents),
       Ev.flushEv, Ev.closeEv]
  | none => [Ev.readEv BUF_SIZE, Ev.panicEv]

/-- The events of one accepted connection `k`: the accept itself followed by
the stream events of its `handle_connection` run, each tagged with the
connection number. -/
def connectionBlock (fs : String → Option String) (k : Nat)
    (request : List Nat) : List (Nat × Ev) :=
  (Ev.acceptEv :: handleTrace fs request).map (fun e => (k, e))

/-- The trace of the accept loop `for stream in listener.incoming() { ... }`,
starting at connection number `k`. Each element of `incoming` is the result
the OS hands to the loop: `none` is a failed accept, on which
`stream.unwrap()` panics and the process dies; `some request` is an accepted
connection carrying the request bytes. A panic inside `handle_connection`
(missing route file) also ends the process, so nothing follows it in the
trace. -/
def serverTraceAux (fs : String → Option String) :
    Nat → List (Option (List Nat)) → List (Nat × Ev)
  | _, [] => []
  | k, none :: _ => [(k, Ev.acceptPanicEv)]
  | k, some request :: rest =>
    connectionBlock fs k request ++
      (if handle_connection fs request = none then []
       else serverTraceAux fs (k + 1) rest)

/-- The full trace of the accept loop from startup. -/
def serverTrace (fs : String → Option String)
    (incoming : List (Option (List Nat))) : List (Nat × Ev) :=
  serverTraceAux fs 0 incoming

/-- The fixed listening address: `TcpListener::bind("127.0.0.1:7878")`. -/
def bindAddress : String := "127.0.0.1:7878"

/-- Outcome of `main`: either the panic of
`TcpListener::bind(..).unwrap()` on a failed bind, in which case the process
terminates before any connection is handled, or the running accept loop. -/
inductive MainOutcome where
  | bindPanic : MainOutcome
  | running : List (Nat × Ev) → MainOutcome
deriving DecidableEq

/-- Model of `main`: the single bind attempt (its OS result is `bindResult`;
`none` = address unbindable), then the accept loop over the incoming
connections. -/
def mainModel (fs : String → Option String) (bindResult : Option Unit)
    (incoming : List (Option (List Nat))) : MainOutcome :=
  match bindResult with
  | none => MainOutcome.bindPanic
  | some _ => MainOutcome.running (serverTrace fs incoming)

/-- A sample file system holding both route files, used to instantiate the
theorems at concrete inputs. -/
def sampleFs : String → Option String :=
  fun name =>
    if name = "hello.html" then some "<p>Hi from hello</p>"
    else if name = "404.html" then some "<p>404 page</p>"
    else none

/-! Helper lemmas about the embedding. -/

/-- `starts_with xs p` holds exactly when the first `|p|` elements of `xs`
are `p`. -/
theorem starts_with_iff_take :
    ∀ (p xs : List Nat), starts_with xs p = true ↔ xs.take p.length = p
  | [], xs => by simp [starts_with]
  | b :: bs, [] => by simp [starts_with]
  | b :: bs, a :: as => by
    simp [starts_with, List.take_succ_cons, Bool.and_eq_true, beq_iff_eq,
      starts_with_iff_take bs as]

/-- The buffer always has exactly 1024 bytes. -/
theorem readToBuffer_length (request : List Nat) :
    (readToBuffer request).length = BUF_SIZE := by
  simp [readToBuffer, List.length_take, BUF_SIZE]
  omega

/-- The first `n ≤ 1024` bytes of the buffer: the request bytes, padded with
the buffer's initial zero bytes where the request is shorter than `n`. -/
theorem readToBuffer_take (request : List Nat) (n : Nat) (h : n ≤ BUF_SIZE) :
    (readToBuffer request).take n =
      request.take n ++ List.replicate (n - request.length) 0 := by
  unfold readToBuffer
  rw [List.take_append_eq_append_take, List.take_take, List.take_replicate,
    List.length_take]
  have h1 : min n BUF_SIZE = n := Nat.min_eq_left h
  have h2 : min (n - min BUF_SIZE request.length) (BUF_SIZE - request.length)
      = n - request.length := by
    unfold BUF_SIZE at h ⊢
    omega
  rw [h1, h2]

/-- The pattern is 16 bytes long. -/
theorem get_length : get.length = 16 := rfl

/-- No byte of the pattern is the zero byte. -/
theorem zero_not_mem_get : 0 ∉ get := by decide

/-- Classification is unchanged by the move from the raw request bytes to the
zero-padded 1024-byte buffer: the trailing zero bytes are never mistaken for
request content, and truncation at 1024 bytes never loses the 16-byte
pattern. -/
theorem starts_with_readToBuffer (request : List Nat) :
    starts_with (readToBuffer request) get = starts_with request get := by
  rw [Bool.eq_iff_iff, starts_with_iff_take, starts_with_iff_take]
  rw [readToBuffer_take request get.length (by decide)]
  by_cases h : get.length ≤ request.length
  · have : get.length - request.length = 0 := Nat.sub_eq_zero_of_le h
    rw [this]
    simp
  · push_neg at h
    constructor
    · intro hbuf
      exfalso
      have hlen : (request.take get.length ++
          List.replicate (get.length - request.length) 0)[request.length]? =
          some 0 := by
        rw [List.getElem?_append_right]
        · rw [List.take_of_length_le (Nat.le_of_lt h), Nat.sub_self]
          exact List.getElem?_replicate_of_lt (by omega)
        · rw [List.length_take]
          omega
      rw [hbuf] at hlen
      exact zero_not_mem_get (List.getElem?_mem hlen)
    · intro hreq
      exfalso
      have := congrArg List.length hreq
      rw [List.length_take, get_length] at this
      rw [get_length] at h
      omega

/-- The classification result when the request begins with the pattern. -/
theorem route_of_starts_with (request : List Nat)
    (h : starts_with request get = true) :
    routeStatus request = "HTTP/1.1 200 OK\r\n\r\n" ∧
      routeFile request = "hello.html" := by
  unfold routeStatus routeFile classifyBuffer
  rw [starts_with_readToBuffer, h]
  simp

/-- The classification result when the request does not begin with the
pattern. -/
theorem route_of_not_starts_with (request : List Nat)
    (h : starts_with request get = false) :
    routeStatus request = "HTTP/1.1 404 NOT FOUND\r\n\r\n" ∧
      routeFile request = "404.html" := by
  unfold routeStatus routeFile classifyBuffer
  rw [starts_with_readToBuffer, h]
  simp

/-- `handle_connection` panics exactly when the selected file is missing. -/
theorem handle_connection_eq_none (fs : String → Option String)
    (request : List Nat) :
    handle_connection fs request = none ↔ fs (routeFile request) = none := by
  unfold handle_connection
  cases fs (routeFile request) <;> simp

/-- `handle_connection` on a present file returns the status line followed
directly by the file contents. -/
theorem handle_connection_eq_some (fs : String → Option String)
    (request : List Nat) (contents : String)
    (h : fs (routeFile request) = some contents) :
    handle_connection fs request = some (routeStatus request ++ contents) := by
  unfold handle_connection
  rw [h]

/-- The selected file is always one of the two route files. -/
theorem routeFile_cases (request : List Nat) :
    routeFile request = "hello.html" ∨ routeFile request = "404.html" := by
  unfold routeFile classifyBuffer
  split <;> simp

/-- Every event of a connection block carries that connection's number. -/
theorem connectionBlock_index (fs : String → Option String) (k : Nat)
    (request : List Nat) (i m : Nat) (e : Ev)
    (h : (connectionBlock fs k request)[i]? = some (m, e)) : m = k := by
  unfold connectionBlock at h
  rw [List.getElem?_map] at h
  cases he : (Ev.acceptEv :: handleTrace fs request)[i]? with
  | none => rw [he] at h; simp at h
  | some ev =>
      rw [he] at h
      simp only [Option.map_some', Option.some.injEq, Prod.mk.injEq] at h
      exact h.1.symm

/-- The block of a connection whose route file is present: accept, read,
write of the full response, flush, close. -/
theorem connectionBlock_of_some (fs : String → Option String) (k : Nat)
    (request : List Nat) (contents : String)
    (hc : fs (routeFile request) = some contents) :
    connectionBlock fs k request =
      [(k, Ev.acceptEv), (k, Ev.readEv BUF_SIZE),
       (k, Ev.writeEv (routeStatus request ++ contents)),
       (k, Ev.flushEv), (k, Ev.closeEv)] := by
  unfold connectionBlock handleTrace
  rw [hc]
  rfl

/-- Connection numbers in the loop trace never drop below the starting
number. -/
theorem serverTraceAux_index_ge (fs : String → Option String) :
    ∀ (incoming : List (Option (List Nat))) (k i m : Nat) (e : Ev),
      (serverTraceAux fs k incoming)[i]? = some (m, e) → k ≤ m
  | [], k, i, m, e => by
    intro h
    simp [serverTraceAux] at h
  | none :: rest, k, i, m, e => by
    intro h
    rcases i with _ | i
    · simp only [serverTraceAux, List.getElem?_cons_zero, Option.some.injEq,
        Prod.mk.injEq] at h
      omega
    · simp [serverTraceAux] at h
  | some req :: rest, k, i, m, e => by
    intro h
    unfold serverTraceAux at h
    by_cases hi : i < (connectionBlock fs k req).length
    · rw [List.getElem?_append_left hi] at h
      exact Nat.le_of_eq (connectionBlock_index fs k req i m e h).symm
    · push_neg at hi
      rw [List.getElem?_append_right hi] at h
      by_cases hn : handle_connection fs req = none
      · rw [if_pos hn] at h
        simp at h
      · rw [if_neg hn] at h
        have := serverTraceAux_index_ge fs rest (k + 1) _ m e h
        omega

/-- Sequencing invariant of the accept loop: any event of a connection
numbered above the starting number is preceded in the trace by the write of
the full response and then the close of the previous connection. -/
theorem serverTraceAux_seq (fs : String → Option String) :
    ∀ (incoming : List (Option (List Nat))) (k i m : Nat) (e : Ev),
      (serverTraceAux fs k incoming)[i]? = some (m, e) → k < m →
      ∃ jw jc d, jw < jc ∧ jc < i ∧
        (serverTraceAux fs k incoming)[jw]? = some (m - 1, Ev.writeEv d) ∧
        (serverTraceAux fs k incoming)[jc]? = some (m - 1, Ev.closeEv)
  | [], k, i, m, e => by
    intro h _
    simp [serverTraceAux] at h
  | none :: rest, k, i, m, e => by
    intro h hk
    rcases i with _ | i
    · simp only [serverTraceAux, List.getElem?_cons_zero, Option.some.injEq,
        Prod.mk.injEq] at h
      omega
    · simp [serverTraceAux] at h
  | some req :: rest, k, i, m, e => by
    intro h hk
    unfold serverTraceAux at h ⊢
    by_cases hi : i < (connectionBlock fs k req).length
    · rw [List.getElem?_append_left hi] at h
      have := connectionBlock_index fs k req i m e h
      omega
    · push_neg at hi
      rw [List.getElem?_append_right hi] at h
      by_cases hn : handle_connection fs req = none
      · rw [if_pos hn] at h
        simp at h
      · rw [if_neg hn] at h ⊢
        rcases hc : fs (routeFile req) with _ | contents
        · exact absurd ((handle_connection_eq_none fs req).mpr hc) hn
        have hB := connectionBlock_of_some fs k req contents hc
        have hbl : (connectionBlock fs k req).length = 5 := by rw [hB]; rfl
        by_cases hm : m = k + 1
        · refine ⟨2, 4, routeStatus req ++ contents, by omega, by omega, ?_, ?_⟩
          · rw [List.getElem?_append_left (by omega)]
            rw [hB]
            have hm1 : m - 1 = k := by omega
            rw [hm1]
            rfl
          · rw [List.getElem?_append_left (by omega)]
            rw [hB]
            have hm1 : m - 1 = k := by omega
            rw [hm1]
            rfl
        · have hk1 : k + 1 < m := by
            have := serverTraceAux_index_ge fs rest (k + 1) _ m e h
            omega
          obtain ⟨jw, jc, d, h1, h2, h3, h4⟩ :=
            serverTraceAux_seq fs rest (k + 1) (i - (connectionBlock fs k req).length) m e h hk1
          refine ⟨(connectionBlock fs k req).length + jw,
            (connectionBlock fs k req).length + jc, d,
            by omega, by omega, ?_, ?_⟩
          · rw [List.getElem?_append_right (Nat.le_add_right _ _),
              Nat.add_sub_cancel_left]
            exact h3
          · rw [List.getElem?_append_right (Nat.le_add_right _ _),
              Nat.add_sub_cancel_left]
            exact h4

/-- The loop trace never looks past a failed accept: the trace of any
incoming sequence is unchanged when everything after the first accept
failure is replaced. -/
theorem serverTraceAux_accept_error (fs : String → Option String) :
    ∀ (pre : List (Option (List Nat))) (k : Nat)
      (post : List (Option (List Nat))),
      serverTraceAux fs k (pre ++ none :: post) =
        serverTraceAux fs k (pre ++ [none])
  | [], k, post => rfl
  | none :: pre, k, post => rfl
  | some req :: pre, k, post => by
    simp only [List.cons_append, serverTraceAux]
    by_cases hn : handle_connection fs req = none
    · rw [if_pos hn, if_pos hn]
    · rw [if_neg hn, if_neg hn]
      exact congrArg (fun t => connectionBlock fs k req ++ t)
        (serverTraceAux_accept_error fs pre (k + 1) post)

/-! The claims. -/

/-- C1: for every input whose leading bytes are exactly the 16-byte sequence
`"GET / HTTP/1.1\r\n"` followed by any suffix within the 1024-byte cap,
`handle_connection` selects the root route, and the response is the status
line `"HTTP/1.1 200 OK\r\n\r\n"` followed by the verbatim contents of
`hello.html`. -/
theorem root_route_response (fs : String → Option String) (suffix : List Nat)
    (hello : String)
    (_hlen : (get ++ suffix).length ≤ BUF_SIZE)
    (hfs : fs "hello.html" = some hello) :
    routeStatus (get ++ suffix) = "HTTP/1.1 200 OK\r\n\r\n" ∧
    routeFile (get ++ suffix) = "hello.html" ∧
    handle_connection fs (get ++ suffix) =
      some ("HTTP/1.1 200 OK\r\n\r\n" ++ hello) := by
  have hsw : starts_with (get ++ suffix) get = true := by
    rw [starts_with_iff_take]
    exact List.take_left get suffix
  obtain ⟨hs, hf⟩ := route_of_starts_with _ hsw
  refine ⟨hs, hf, ?_⟩
  have hh := handle_connection_eq_some fs (get ++ suffix) hello
    (by rw [hf]; exact hfs)
  rw [hh, hs]

/-- Witness for C1 at the request `"GET / HTTP/1.1\r\nHost: x\r\n\r\n"` and
the sample file system. -/
theorem root_route_response_witness :
    routeStatus (get ++ asciiBytes "Host: x\r\n\r\n") =
      "HTTP/1.1 200 OK\r\n\r\n" ∧
    routeFile (get ++ asciiBytes "Host: x\r\n\r\n") = "hello.html" ∧
    handle_connection sampleFs (get ++ asciiBytes "Host: x\r\n\r\n") =
      some ("HTTP/1.1 200 OK\r\n\r\n" ++ "<p>Hi from hello</p>") :=
  root_route_response sampleFs (asciiBytes "Host: x\r\n\r\n")
    "<p>Hi from hello</p>" (by decide) rfl

/-- C2: for every input that does not start with the exact byte sequence
`"GET / HTTP/1.1\r\n"`, `handle_connection` classifies the request as
not-found and responds with the status line `"HTTP/1.1 404 NOT FOUND\r\n\r\n"`
followed by the verbatim contents of `404.html`. -/
theorem not_found_response (fs : String → Option String) (request : List Nat)
    (page : String)
    (hsw : starts_with request get = false)
    (hfs : fs "404.html" = some page) :
    routeStatus request = "HTTP/1.1 404 NOT FOUND\r\n\r\n" ∧
    routeFile request = "404.html" ∧
    handle_connection fs request =
      some ("HTTP/1.1 404 NOT FOUND\r\n\r\n" ++ page) := by
  obtain ⟨hs, hf⟩ := route_of_not_starts_with _ hsw
  refine ⟨hs, hf, ?_⟩
  have hh := handle_connection_eq_some fs request page (by rw [hf]; exact hfs)
  rw [hh, hs]

/-- Witness for C2 at the request `"POST / HTTP/1.1\r\n\r\n"` and the sample
file system. -/
theorem not_found_response_witness :
    routeStatus (asciiBytes "POST / HTTP/1.1\r\n\r\n") =
      "HTTP/1.1 404 NOT FOUND\r\n\r\n" ∧
    routeFile (asciiBytes "POST / HTTP/1.1\r\n\r\n") = "404.html" ∧
    handle_connection sampleFs (asciiBytes "POST / HTTP/1.1\r\n\r\n") =
      some ("HTTP/1.1 404 NOT FOUND\r\n\r\n" ++ "<p>404 page</p>") :=
  not_found_response sampleFs (asciiBytes "POST / HTTP/1.1\r\n\r\n")
    "<p>404 page</p>" rfl rfl

/-- C3: a request of exactly 1024 bytes is read in full; a shorter request
leaves the remaining buffer positions as zero bytes; and the trailing zero
bytes never change the outcome of the 16-byte classification match. -/
theorem read_boundary (request : List Nat) :
    (request.length = BUF_SIZE → readToBuffer request = request) ∧
    (∀ i, request.length ≤ i → i < BUF_SIZE →
      (readToBuffer request)[i]? = some 0) ∧
    starts_with (readToBuffer request) get = starts_with request get := by
  refine ⟨?_, ?_, starts_with_readToBuffer request⟩
  · intro h
    unfold readToBuffer
    rw [h, Nat.sub_self, List.replicate_zero, List.append_nil]
    exact List.take_of_length_le (Nat.le_of_eq h)
  · intro i h1 h2
    unfold readToBuffer
    rw [List.getElem?_append_right (by simp only [List.length_take]; omega)]
    simp only [List.length_take]
    exact List.getElem?_replicate_of_lt (by unfold BUF_SIZE at h2 ⊢; omega)

/-- Witness for C3 at a 1024-byte request and at the 2-byte request
`[71, 69]`. -/
theorem read_boundary_witness :
    readToBuffer (List.replicate BUF_SIZE 71) = List.replicate BUF_SIZE 71 ∧
    (readToBuffer [71, 69])[2]? = some 0 ∧
    starts_with (readToBuffer [71, 69]) get = starts_with [71, 69] get :=
  ⟨(read_boundary (List.replicate BUF_SIZE 71)).1
      (List.length_replicate BUF_SIZE 71),
   (read_boundary [71, 69]).2.1 2 (by decide) (by decide),
   (read_boundary [71, 69]).2.2⟩

/-- C4: when the selected route file is present, the stream events of
`handle_connection` are exactly one read, then one write of the full
response — the status line concatenated directly with the file contents,
with no further headers — then the flush, and the close of the connection
comes after the flush. -/
theorem write_then_flush_then_close (fs : String → Option String)
    (request : List Nat) (contents : String)
    (hc : fs (routeFile request) = some contents) :
    handle_connection fs request = some (routeStatus request ++ contents) ∧
    handleTrace fs request =
      [Ev.readEv BUF_SIZE, Ev.writeEv (routeStatus request ++ contents),
       Ev.flushEv, Ev.closeEv] := by
  constructor
  · unfold handle_connection
    rw [hc]
  · unfold handleTrace
    rw [hc]

/-- Witness for C4 at the empty request and the sample file system. -/
theorem write_then_flush_then_close_witness :
    handle_connection sampleFs [] =
      some (routeStatus [] ++ "<p>404 page</p>") ∧
    handleTrace sampleFs [] =
      [Ev.readEv BUF_SIZE, Ev.writeEv (routeStatus [] ++ "<p>404 page</p>"),
       Ev.flushEv, Ev.closeEv] :=
  write_then_flush_then_close sampleFs [] "<p>404 page</p>" rfl

/-- C5: two runs of `handle_connection` on the same input buffer produce
byte-identical responses whenever the contents of `hello.html` and
`404.html` are unchanged between the runs — no server-side state carries
over. -/
theorem stateless_identical_responses (fs1 fs2 : String → Option String)
    (request : List Nat)
    (hh : fs1 "hello.html" = fs2 "hello.html")
    (h4 : fs1 "404.html" = fs2 "404.html") :
    handle_connection fs1 request = handle_connection fs2 request := by
  unfold handle_connection
  rcases routeFile_cases request with hf | hf <;> rw [hf]
  · rw [hh]
  · rw [h4]

/-- Witness for C5: the sample file system against a second file system that
agrees on the two route files but differs elsewhere. -/
theorem stateless_identical_responses_witness :
    handle_connection sampleFs [] =
      handle_connection
        (fun name =>
          if name = "hello.html" then some "<p>Hi from hello</p>"
          else if name = "404.html" then some "<p>404 page</p>"
          else some "other") [] :=
  stateless_identical_responses sampleFs
    (fun name =>
      if name = "hello.html" then some "<p>Hi from hello</p>"
      else if name = "404.html" then some "<p>404 page</p>"
      else some "other") [] rfl rfl

/-- C6: when the selected route file is absent, handling the request fails
fatally: `handle_connection` panics and never produces a response, so no
fallback and no empty body is served. -/
theorem missing_file_fatal (fs : String → Option String) (request : List Nat)
    (h : fs (routeFile request) = none) :
    handle_connection fs request = none ∧
      ∀ response, handle_connection fs request ≠ some response := by
  have h0 := (handle_connection_eq_none fs request).mpr h
  exact ⟨h0, fun response hr => by rw [h0] at hr; exact Option.noConfusion hr⟩

/-- Witness for C6 at the empty file system. -/
theorem missing_file_fatal_witness :
    handle_connection (fun _ => none) [] = none ∧
      ∀ response, handle_connection (fun _ => none) [] ≠ some response :=
  missing_file_fatal (fun _ => none) [] rfl

/-- C7: a failed bind terminates the process at once — the outcome is the
bind panic whatever connections would have arrived, with no retry — and the
accept loop runs only when the bind succeeds. -/
theorem bind_failure_fatal (fs : String → Option String)
    (incoming : List (Option (List Nat))) (u : Unit) :
    mainModel fs none incoming = MainOutcome.bindPanic ∧
    mainModel fs (some u) incoming =
      MainOutcome.running (serverTrace fs incoming) :=
  ⟨rfl, rfl⟩

/-- C8: an accept error terminates the accept loop: the server trace ignores
everything after the first failed accept, and a failed accept produces only
the accept panic with no retry and no further connection. -/
theorem accept_error_stops_loop (fs : String → Option String)
    (pre post : List (Option (List Nat))) (k : Nat) :
    serverTrace fs (pre ++ none :: post) = serverTrace fs (pre ++ [none]) ∧
    serverTraceAux fs k (none :: post) = [(k, Ev.acceptPanicEv)] :=
  ⟨serverTraceAux_accept_error fs pre 0 post, rfl⟩

/-- C9: the accept loop is strictly sequential: any event of connection
`n + 1` — in particular its accept — occurs only after the full response of
connection `n` has been written and connection `n` has been closed. -/
theorem sequential_handling (fs : String → Option String)
    (incoming : List (Option (List Nat))) (n i : Nat) (e : Ev)
    (h : (serverTrace fs incoming)[i]? = some (n + 1, e)) :
    ∃ jw jc d, jw < jc ∧ jc < i ∧
      (serverTrace fs incoming)[jw]? = some (n, Ev.writeEv d) ∧
      (serverTrace fs incoming)[jc]? = some (n, Ev.closeEv) := by
  have hs := serverTraceAux_seq fs incoming 0 i (n + 1) e h (Nat.succ_pos n)
  simp only [Nat.add_sub_cancel] at hs
  exact hs

/-- Witness for C9: with two accepted empty requests, the accept of
connection 1 at trace position 5 is preceded by the write and the close of
connection 0. -/
theorem sequential_handling_witness :
    ∃ jw jc d, jw < jc ∧ jc < 5 ∧
      (serverTrace sampleFs [some [], some []])[jw]? =
        some (0, Ev.writeEv d) ∧
      (serverTrace sampleFs [some [], some []])[jc]? =
        some (0, Ev.closeEv) :=
  sequential_handling sampleFs [some [], some []] 0 5 Ev.acceptEv rfl

/-- C10: classification depends only on the first 16 bytes of the request:
two requests agreeing on their first 16 bytes select the same status line
and the same route file. -/
theorem classification_first_16 (r1 r2 : List Nat)
    (h : r1.take 16 = r2.take 16) :
    routeStatus r1 = routeStatus r2 ∧ routeFile r1 = routeFile r2 := by
  have hsw : starts_with r1 get = starts_with r2 get := by
    rw [Bool.eq_iff_iff, starts_with_iff_take, starts_with_iff_take,
      get_length, h]
  unfold routeStatus routeFile classifyBuffer
  rw [starts_with_readToBuffer, starts_with_readToBuffer, hsw]
  exact ⟨rfl, rfl⟩

/-- Witness for C10: the bare pattern against the pattern followed by a zero
byte. -/
theorem classification_first_16_witness :
    routeStatus get = routeStatus (get ++ [0]) ∧
    routeFile get = routeFile (get ++ [0]) :=
  classification_first_16 get (get ++ [0]) (by decide)

end WebServer
